import Mathlib

/-!
# Verification of the Osdag bridge-module core

Shallow embedding of the geometry constraint solver and the
nearest-location matcher of the bridge module
(`frontend/src/pages/BridgeModule.tsx`), with theorems checking the
specification's claims against it.

Numbers are modelled as rationals.  JavaScript's `Math.floor` is `Int.floor`,
`Math.round` is Mathlib's `round` (both round half-way cases toward +∞), and
`Number(x.toFixed(1))` is `round1` below (one-decimal rounding, half-way
cases away from zero for the values arising here).
-/

/-- One-decimal rounding: the embedding of `Number(x.toFixed(1))`. -/
def round1 (x : ℚ) : ℚ := (round (10 * x) : ℤ) / 10

/-- The geometry triple held in the component state
(`type Geometry = { spacing; girders; overhang }`).  `girders` is a
JavaScript number, hence a rational here, not an integer. -/
structure Geometry where
  spacing : ℚ
  girders : ℚ
  overhang : ℚ
deriving DecidableEq, Repr

/-- `overallWidth = carriagewayWidth + 5`, as recomputed at the top of each
solver operation. -/
def overallWidth (cw : ℚ) : ℚ := cw + 5

/-- The typed errors of the geometry solver; each corresponds to one of the
error strings set via `setGeometryError`. -/
inductive GeoErr
  | invalidSpacing
  | invalidGirderCount
  | invalidOverhang
  | constraintViolated
deriving DecidableEq, Repr

/-- The error string the component stores for each error
(`"Invalid spacing"`, `"Number of girders must be positive"`,
`"Invalid overhang"`, `"Geometry constraints violated"`). -/
def GeoErr.message : GeoErr → String
  | .invalidSpacing => "Invalid spacing"
  | .invalidGirderCount => "Number of girders must be positive"
  | .invalidOverhang => "Invalid overhang"
  | .constraintViolated => "Geometry constraints violated"

/-- `openGeometryModal` (BridgeModule.tsx:245-260), the solver's
initialization: default spacing 2.5, `girders = Math.floor((overallWidth - 2)
/ spacing)`, `overhang = Number((overallWidth - girders * spacing)
.toFixed(1))`. -/
def openGeometryModal (cw : ℚ) : Geometry :=
  let oW := overallWidth cw
  let spacing : ℚ := 5 / 2
  let girders : ℚ := ((⌊(oW - 2) / spacing⌋ : ℤ) : ℚ)
  let overhang := round1 (oW - girders * spacing)
  ⟨spacing, girders, overhang⟩

/-- Core of `updateFromSpacing` (BridgeModule.tsx:262-281), after the
geometry/carriagewayWidth presence guard. -/
def updateFromSpacing (cw : ℚ) (geo : Geometry) (spacing : ℚ) :
    Except GeoErr Geometry :=
  let oW := overallWidth cw
  if spacing ≤ 0 ∨ oW ≤ spacing then .error .invalidSpacing
  else
    let girders : ℚ := ((round ((oW - geo.overhang) / spacing) : ℤ) : ℚ)
    let overhang := round1 (oW - girders * spacing)
    if overhang < 0 then .error .constraintViolated
    else .ok ⟨spacing, girders, overhang⟩

/-- Core of `updateFromGirders` (BridgeModule.tsx:283-303), after the
presence guard. -/
def updateFromGirders (cw : ℚ) (geo : Geometry) (girders : ℚ) :
    Except GeoErr Geometry :=
  let oW := overallWidth cw
  if girders ≤ 0 then .error .invalidGirderCount
  else
    let overhang := round1 (oW - geo.spacing * girders)
    if overhang < 0 ∨ oW ≤ overhang then .error .constraintViolated
    else .ok ⟨geo.spacing, girders, overhang⟩

/-- Core of `updateFromOverhang` (BridgeModule.tsx:305-325), after the
presence guard.  Faithful to the source for `geo.girders ≠ 0` (JavaScript
division by zero yields `Infinity`, which the rational model cannot
represent; theorems about this function assume a nonzero girder count). -/
def updateFromOverhang (cw : ℚ) (geo : Geometry) (overhang : ℚ) :
    Except GeoErr Geometry :=
  let oW := overallWidth cw
  if overhang < 0 ∨ oW ≤ overhang then .error .invalidOverhang
  else
    let spacing := round1 ((oW - overhang) / geo.girders)
    if spacing ≤ 0 then .error .constraintViolated
    else .ok ⟨spacing, geo.girders, overhang⟩

/-- A single-field edit event on the geometry dialog. -/
inductive EditOp
  | setSpacing (v : ℚ)
  | setGirders (v : ℚ)
  | setOverhang (v : ℚ)
deriving DecidableEq, Repr

/-- Dispatch of an edit event to the matching solver operation. -/
def runUpdate (cw : ℚ) (geo : Geometry) : EditOp → Except GeoErr Geometry
  | .setSpacing v => updateFromSpacing cw geo v
  | .setGirders v => updateFromGirders cw geo v
  | .setOverhang v => updateFromOverhang cw geo v

/-- The component state the solver operations read and write:
`geometry` (`Geometry | null`), `carriagewayWidth` (`number | ""`) and the
`geometryError` string. -/
structure SolverState where
  geometry : Option Geometry
  carriagewayWidth : Option ℚ
  geometryError : String
deriving DecidableEq, Repr

/-- One call of an update handler on the component state: the silent
early return when `!geometry || typeof carriagewayWidth !== "number"`,
otherwise `setGeometryError` on the error paths and
`setGeometry` + `setGeometryError("")` on success. -/
def step (s : SolverState) (op : EditOp) : SolverState :=
  match s.geometry, s.carriagewayWidth with
  | some geo, some cw =>
    match runUpdate cw geo op with
    | .error e => { s with geometryError := e.message }
    | .ok g => { s with geometry := some g, geometryError := "" }
  | _, _ => s

/-- The specification's notion of a valid geometry triple (§3): positive
spacing, integer girder count ≥ 1, `0 ≤ overhang < overallWidth` and
`overhang = overallWidth − spacing × girders`. -/
def ValidTriple (oW : ℚ) (g : Geometry) : Prop :=
  0 < g.spacing ∧ (∃ k : ℤ, 1 ≤ k ∧ g.girders = (k : ℚ)) ∧
    0 ≤ g.overhang ∧ g.overhang < oW ∧
    g.overhang = oW - g.spacing * g.girders

/-- **C3**: `openGeometryModal` computes `overallWidth = carriagewayWidth + 5`
and returns the default triple with spacing `2.5`,
`girders = floor((overallWidth − 2) / spacing)` and
`overhang = round1(overallWidth − girders × spacing)`; for
carriagewayWidth `7.5` this is overallWidth `12.5` and the triple
`(2.5, 4, 2.5)`. -/
theorem openGeometryModal_spec :
    (∀ cw : ℚ,
      (openGeometryModal cw).spacing = 5 / 2 ∧
      (openGeometryModal cw).girders =
        ((⌊(overallWidth cw - 2) / (5 / 2)⌋ : ℤ) : ℚ) ∧
      (openGeometryModal cw).overhang =
        round1 (overallWidth cw - (openGeometryModal cw).girders * (5 / 2))) ∧
    overallWidth (15 / 2) = 25 / 2 ∧
    openGeometryModal (15 / 2) = ⟨5 / 2, 4, 5 / 2⟩ := by
  refine ⟨fun cw => ⟨rfl, rfl, rfl⟩, by norm_num [overallWidth], ?_⟩
  simp only [openGeometryModal, overallWidth, round1]
  norm_num [round_eq, Int.floor_eq_iff]

/-- **C2**: `updateFromSpacing` fails with `InvalidSpacing` exactly when the
new spacing is `≤ 0` or `≥ overallWidth`; on success it holds the current
overhang fixed and stores the new spacing,
`girders = round((overallWidth − overhang) / newSpacing)` and
`overhang = round1(overallWidth − girders × newSpacing)`; it fails with
`ConstraintViolated` when that recomputed overhang is negative; and
`updateFromSpacing 13` with overallWidth `12.5` fails with
`InvalidSpacing`. -/
theorem updateFromSpacing_spec (cw : ℚ) (geo : Geometry) (s : ℚ) :
    (updateFromSpacing cw geo s = .error .invalidSpacing ↔
      s ≤ 0 ∨ overallWidth cw ≤ s) ∧
    (∀ r, updateFromSpacing cw geo s = .ok r →
      r.spacing = s ∧
      r.girders = ((round ((overallWidth cw - geo.overhang) / s) : ℤ) : ℚ) ∧
      r.overhang = round1 (overallWidth cw - r.girders * s)) ∧
    (0 < s → s < overallWidth cw →
      round1 (overallWidth cw -
        ((round ((overallWidth cw - geo.overhang) / s) : ℤ) : ℚ) * s) < 0 →
      updateFromSpacing cw geo s = .error .constraintViolated) ∧
    updateFromSpacing (15 / 2) ⟨5 / 2, 4, 5 / 2⟩ 13 =
      .error .invalidSpacing := by
  refine ⟨?_, ?_, ?_, ?_⟩
  · simp only [updateFromSpacing]
    split_ifs with h1 h2 <;> simp_all
  · intro r hr
    simp only [updateFromSpacing] at hr
    split_ifs at hr with h1 h2
    simp only [Except.ok.injEq] at hr
    subst hr
    exact ⟨rfl, rfl, rfl⟩
  · intro hs1 hs2 hcv
    simp only [updateFromSpacing]
    rw [if_neg (by push_neg; exact ⟨hs1, hs2⟩), if_pos hcv]
  · simp only [updateFromSpacing, overallWidth]
    norm_num

/-- **C4**: `updateFromGirders` fails with `InvalidGirderCount` exactly when
the new girder count is `≤ 0`; on success it holds spacing fixed and stores
`overhang = round1(overallWidth − spacing × newGirders)`; it fails with
`ConstraintViolated` when that overhang is `< 0` or `≥ overallWidth`; and
from the triple `(2.5, 4, 2.5)` with overallWidth `12.5`, setting
girders to `5` succeeds with overhang `0`. -/
theorem updateFromGirders_spec (cw : ℚ) (geo : Geometry) (g : ℚ) :
    (updateFromGirders cw geo g = .error .invalidGirderCount ↔ g ≤ 0) ∧
    (∀ r, updateFromGirders cw geo g = .ok r →
      r.spacing = geo.spacing ∧ r.girders = g ∧
      r.overhang = round1 (overallWidth cw - geo.spacing * g)) ∧
    (0 < g →
      (round1 (overallWidth cw - geo.spacing * g) < 0 ∨
        overallWidth cw ≤ round1 (overallWidth cw - geo.spacing * g)) →
      updateFromGirders cw geo g = .error .constraintViolated) ∧
    updateFromGirders (15 / 2) ⟨5 / 2, 4, 5 / 2⟩ 5 = .ok ⟨5 / 2, 5, 0⟩ := by
  refine ⟨?_, ?_, ?_, ?_⟩
  · simp only [updateFromGirders]
    split_ifs with h1 h2 <;> simp_all
  · intro r hr
    simp only [updateFromGirders] at hr
    split_ifs at hr with h1 h2
    simp only [Except.ok.injEq] at hr
    subst hr
    exact ⟨rfl, rfl, rfl⟩
  · intro hg hcv
    simp only [updateFromGirders]
    rw [if_neg (by push_neg; exact hg), if_pos hcv]
  · simp only [updateFromGirders, overallWidth, round1]
    norm_num [round_eq, Int.floor_eq_iff]

/-- **C5**: `updateFromOverhang` fails with `InvalidOverhang` exactly when the
new overhang is `< 0` or `≥ overallWidth`; on success it holds the girder
count fixed, stores the new overhang and
`spacing = round1((overallWidth − newOverhang) / girders)`; and it fails
with `ConstraintViolated` when that spacing is `≤ 0`.  The nonzero girder
count keeps the rational division faithful to the source. -/
theorem updateFromOverhang_spec (cw : ℚ) (geo : Geometry) (h : ℚ)
    (_hg : geo.girders ≠ 0) :
    (updateFromOverhang cw geo h = .error .invalidOverhang ↔
      h < 0 ∨ overallWidth cw ≤ h) ∧
    (∀ r, updateFromOverhang cw geo h = .ok r →
      r.girders = geo.girders ∧ r.overhang = h ∧
      r.spacing = round1 ((overallWidth cw - h) / geo.girders)) ∧
    (0 ≤ h → h < overallWidth cw →
      round1 ((overallWidth cw - h) / geo.girders) ≤ 0 →
      updateFromOverhang cw geo h = .error .constraintViolated) := by
  refine ⟨?_, ?_, ?_⟩
  · simp only [updateFromOverhang]
    split_ifs with h1 h2 <;> simp_all
  · intro r hr
    simp only [updateFromOverhang] at hr
    split_ifs at hr with h1 h2
    simp only [Except.ok.injEq] at hr
    subst hr
    exact ⟨rfl, rfl, rfl⟩
  · intro hh1 hh2 hcv
    simp only [updateFromOverhang]
    rw [if_neg (by push_neg; exact ⟨hh1, hh2⟩), if_pos hcv]

/-- Witness for `updateFromOverhang_spec` at the default triple for
carriagewayWidth `7.5` and overhang input `12`. -/
theorem updateFromOverhang_spec_witness :
    updateFromOverhang (15 / 2) ⟨5 / 2, 4, 5 / 2⟩ 12 =
        .error .invalidOverhang ↔
      (12 : ℚ) < 0 ∨ overallWidth (15 / 2) ≤ 12 :=
  (updateFromOverhang_spec (15 / 2) ⟨5 / 2, 4, 5 / 2⟩ 12 (by norm_num)).1

/-- `round1` of a nonnegative value is nonnegative. -/
theorem round1_nonneg {x : ℚ} (hx : 0 ≤ x) : 0 ≤ round1 x := by
  unfold round1
  have h : (0 : ℤ) ≤ round (10 * x) := by
    rw [round_eq]
    exact Int.le_floor.mpr (by push_cast; linarith)
  have h' : (0 : ℚ) ≤ ((round (10 * x) : ℤ) : ℚ) := by exact_mod_cast h
  linarith [h']

/-- **C1 (counterexample)**: successful solver operations can break the
claimed invariant even with `overallWidth > 0`: `openGeometryModal` at
carriagewayWidth `−2` (overallWidth `3`) stores girders `0` and overhang
`3 = overallWidth`; `updateFromSpacing 12` from the valid triple
`(0.1, 1, 12.4)` succeeds and stores girders `0` and overhang
`12.5 = overallWidth`; `updateFromGirders 0.5` from the default valid
triple succeeds and stores the non-integer girder count `0.5`; and
`updateFromOverhang 12` succeeds storing an overhang that differs from
`round1(overallWidth − spacing × girders)` by `0.1`, beyond the one-decimal
rounding tolerance `0.05`. -/
theorem geometry_invariant_counterexample :
    (0 : ℚ) < overallWidth (-2) ∧
    openGeometryModal (-2) = ⟨5 / 2, 0, 3⟩ ∧
    ¬(1 : ℚ) ≤ (openGeometryModal (-2)).girders ∧
    ¬(openGeometryModal (-2)).overhang < overallWidth (-2) ∧
    ValidTriple (overallWidth (15 / 2)) ⟨1 / 10, 1, 62 / 5⟩ ∧
    updateFromSpacing (15 / 2) ⟨1 / 10, 1, 62 / 5⟩ 12 =
      .ok ⟨12, 0, 25 / 2⟩ ∧
    ValidTriple (overallWidth (15 / 2)) ⟨5 / 2, 4, 5 / 2⟩ ∧
    updateFromGirders (15 / 2) ⟨5 / 2, 4, 5 / 2⟩ (1 / 2) =
      .ok ⟨5 / 2, 1 / 2, 113 / 10⟩ ∧
    ((⌊(1 : ℚ) / 2⌋ : ℤ) : ℚ) ≠ 1 / 2 ∧
    updateFromOverhang (15 / 2) ⟨5 / 2, 4, 5 / 2⟩ 12 = .ok ⟨1 / 10, 4, 12⟩ ∧
    (12 : ℚ) ≠ round1 (overallWidth (15 / 2) - 1 / 10 * 4) ∧
    1 / 20 < |(12 : ℚ) - round1 (overallWidth (15 / 2) - 1 / 10 * 4)| := by
  refine ⟨by norm_num [overallWidth], ?_, ?_, ?_, ?_, ?_, ?_, ?_, ?_, ?_, ?_,
    ?_⟩
  · simp only [openGeometryModal, overallWidth, round1]
    norm_num [round_eq, Int.floor_eq_iff]
  · simp only [openGeometryModal, overallWidth, round1]
    norm_num [round_eq, Int.floor_eq_iff]
  · simp only [openGeometryModal, overallWidth, round1]
    norm_num [round_eq, Int.floor_eq_iff]
  · exact ⟨by norm_num, ⟨1, by norm_num, by norm_num⟩, by norm_num,
      by norm_num [overallWidth], by norm_num [overallWidth]⟩
  · simp only [updateFromSpacing, overallWidth, round1]
    norm_num [round_eq, Int.floor_eq_iff]
  · exact ⟨by norm_num, ⟨4, by norm_num, by norm_num⟩, by norm_num,
      by norm_num [overallWidth], by norm_num [overallWidth]⟩
  · simp only [updateFromGirders, overallWidth, round1]
    norm_num [round_eq, Int.floor_eq_iff]
  · norm_num [Int.floor_eq_iff]
  · simp only [updateFromOverhang, overallWidth, round1]
    norm_num [round_eq, Int.floor_eq_iff]
  · simp only [overallWidth, round1]
    norm_num [round_eq, Int.floor_eq_iff]
  · simp only [overallWidth, round1]
    norm_num [round_eq, Int.floor_eq_iff, abs_of_pos]

/-- **C1 (amended)**: what every successful solver operation does guarantee:
spacing stays positive and overhang stays nonnegative; `openGeometryModal`,
`updateFromSpacing` and `updateFromGirders` establish
`overhang = round1(overallWidth − spacing × girders)` exactly, and the
first two store an integer girder count; `updateFromGirders` (from a
positive prior spacing) and `updateFromOverhang` additionally guarantee
`overhang < overallWidth`.  Girder counts `≥ 1`, integrality of an edited
girder count, `overhang < overallWidth` for the other operations and the
rounding equation for `updateFromOverhang` are not guaranteed. -/
theorem geometry_invariant_amended :
    (∀ cw : ℚ,
      0 < (openGeometryModal cw).spacing ∧
      0 ≤ (openGeometryModal cw).overhang ∧
      (∃ k : ℤ, (openGeometryModal cw).girders = (k : ℚ)) ∧
      (openGeometryModal cw).overhang =
        round1 (overallWidth cw -
          (openGeometryModal cw).spacing * (openGeometryModal cw).girders)) ∧
    (∀ cw geo s r, updateFromSpacing cw geo s = .ok r →
      0 < r.spacing ∧ 0 ≤ r.overhang ∧ (∃ k : ℤ, r.girders = (k : ℚ)) ∧
      r.overhang = round1 (overallWidth cw - r.spacing * r.girders)) ∧
    (∀ cw geo g r, 0 < geo.spacing → updateFromGirders cw geo g = .ok r →
      0 < r.spacing ∧ 0 ≤ r.overhang ∧ r.overhang < overallWidth cw ∧
      r.overhang = round1 (overallWidth cw - r.spacing * r.girders)) ∧
    (∀ cw geo h r, updateFromOverhang cw geo h = .ok r →
      0 < r.spacing ∧ 0 ≤ r.overhang ∧ r.overhang < overallWidth cw ∧
      r.girders = geo.girders) := by
  refine ⟨?_, ?_, ?_, ?_⟩
  · intro cw
    refine ⟨by norm_num [openGeometryModal], ?_, ⟨⌊(overallWidth cw - 2) /
      (5 / 2)⌋, rfl⟩, ?_⟩
    · have hfl : ((⌊(overallWidth cw - 2) / (5 / 2)⌋ : ℤ) : ℚ) ≤
          (overallWidth cw - 2) / (5 / 2) := Int.floor_le _
      have h2 : (0 : ℚ) ≤ overallWidth cw -
          ((⌊(overallWidth cw - 2) / (5 / 2)⌋ : ℤ) : ℚ) * (5 / 2) := by
        have := mul_le_mul_of_nonneg_right hfl (by norm_num : (0:ℚ) ≤ 5 / 2)
        rw [div_mul_cancel₀] at this <;> [linarith; norm_num]
      exact round1_nonneg h2
    · exact congrArg round1 (by simp only [openGeometryModal]; ring)
  · intro cw geo s r hr
    simp only [updateFromSpacing] at hr
    split_ifs at hr with h1 h2
    push_neg at h1
    simp only [Except.ok.injEq] at hr
    subst hr
    push_neg at h2
    exact ⟨h1.1, h2, ⟨round ((overallWidth cw - geo.overhang) / s), rfl⟩,
      congrArg round1 (by ring)⟩
  · intro cw geo g r hsp hr
    simp only [updateFromGirders] at hr
    split_ifs at hr with h1 h2
    push_neg at h2
    simp only [Except.ok.injEq] at hr
    subst hr
    exact ⟨hsp, h2.1, h2.2, rfl⟩
  · intro cw geo h r hr
    simp only [updateFromOverhang] at hr
    split_ifs at hr with h1 h2
    push_neg at h1 h2
    simp only [Except.ok.injEq] at hr
    subst hr
    exact ⟨h2, h1.1, h1.2, rfl⟩

/-- Witness for `geometry_invariant_amended` at the `updateFromGirders`
example triple. -/
theorem geometry_invariant_amended_witness :
    0 < (Geometry.mk (5 / 2) 5 0).spacing ∧
    0 ≤ (Geometry.mk (5 / 2) 5 0).overhang ∧
    (Geometry.mk (5 / 2) 5 0).overhang < overallWidth (15 / 2) ∧
    (Geometry.mk (5 / 2) 5 0).overhang =
      round1 (overallWidth (15 / 2) -
        (Geometry.mk (5 / 2) 5 0).spacing * (Geometry.mk (5 / 2) 5 0).girders) :=
  geometry_invariant_amended.2.2.1 (15 / 2) ⟨5 / 2, 4, 5 / 2⟩ 5 ⟨5 / 2, 5, 0⟩
    (by norm_num)
    (by simp only [updateFromGirders, overallWidth, round1]
        norm_num [round_eq, Int.floor_eq_iff])

/-- **C6**: when a solver operation fails with any error, the handler only
stores the error message; the prior triple (and the carriageway width) are
retained unchanged — no field is partially updated. -/
theorem error_retains_triple (cw : ℚ) (geo : Geometry) (op : EditOp)
    (e : GeoErr) (msg : String)
    (h : runUpdate cw geo op = .error e) :
    step ⟨some geo, some cw, msg⟩ op = ⟨some geo, some cw, e.message⟩ := by
  simp only [step, h]

/-- Witness for `error_retains_triple`: the rejected spacing edit `13` from
the default triple for carriagewayWidth `7.5`. -/
theorem error_retains_triple_witness :
    step ⟨some ⟨5 / 2, 4, 5 / 2⟩, some (15 / 2), ""⟩ (.setSpacing 13) =
      ⟨some ⟨5 / 2, 4, 5 / 2⟩, some (15 / 2), GeoErr.invalidSpacing.message⟩ :=
  error_retains_triple (15 / 2) ⟨5 / 2, 4, 5 / 2⟩ (.setSpacing 13)
    .invalidSpacing ""
    (by simp only [runUpdate, updateFromSpacing, overallWidth]; norm_num)

/-- **C10**: when the geometry has not been initialized or the carriageway
width is not a number, each update handler returns silently: the state —
triple, width and error message — is left exactly as it was. -/
theorem uninitialized_update_noop (s : SolverState) (op : EditOp)
    (h : s.geometry = none ∨ s.carriagewayWidth = none) :
    step s op = s := by
  obtain ⟨g, c, err⟩ := s
  rcases h with h | h
  · simp only at h
    subst h
    rfl
  · simp only at h
    subst h
    cases g <;> rfl

/-- Witness for `uninitialized_update_noop`: a spacing edit with no
initialized triple. -/
theorem uninitialized_update_noop_witness :
    step ⟨none, some 5, ""⟩ (.setSpacing 1) = ⟨none, some 5, ""⟩ :=
  uninitialized_update_noop ⟨none, some 5, ""⟩ (.setSpacing 1) (Or.inl rfl)

/-- Stability of the recomputed girder count: when the current overhang is an
integer number of tenths, the girder count `round((overallWidth − overhang′)
/ s)` recomputed from the once-rounded overhang
`overhang′ = round1(overallWidth − girders × s)` equals the girder count
computed from the original overhang. -/
theorem round_girders_stable (oW s : ℚ) (m : ℤ) (hs : 0 < s) :
    round ((oW - round1 (oW -
        ((round ((oW - (m : ℚ) / 10) / s) : ℤ) : ℚ) * s)) / s) =
      round ((oW - (m : ℚ) / 10) / s) := by
  have hs' : s ≠ 0 := ne_of_gt hs
  set y : ℚ := (oW - (m : ℚ) / 10) / s with hy
  set g₁ : ℤ := round y with hg₁
  have hyg : y * s = oW - (m : ℚ) / 10 := div_mul_cancel₀ _ hs'
  have hoW : oW = (m : ℚ) / 10 + y * s := by linarith [hyg]
  have ht1 : -(1 / 2) ≤ y - (g₁ : ℚ) := by
    have := round_le_add_half y
    rw [← hg₁] at this
    linarith
  have ht2 : y - (g₁ : ℚ) < 1 / 2 := by
    have := sub_half_lt_round y
    rw [← hg₁] at this
    linarith
  have hx : oW - (g₁ : ℚ) * s = (m : ℚ) / 10 + (y - (g₁ : ℚ)) * s := by
    rw [hoW]; ring
  rw [hx]
  set w : ℚ := 10 * ((y - (g₁ : ℚ)) * s) with hw
  have hr1 : round1 ((m : ℚ) / 10 + (y - (g₁ : ℚ)) * s) =
      ((m : ℚ) + ((round w : ℤ) : ℚ)) / 10 := by
    unfold round1
    have h10 : 10 * ((m : ℚ) / 10 + (y - (g₁ : ℚ)) * s) = (m : ℚ) + w := by
      rw [hw]; ring
    rw [h10, round_int_add]
    push_cast
    ring
  rw [hr1]
  set e : ℚ := ((round w : ℤ) : ℚ) - w with he
  have hkey : (oW - ((m : ℚ) + ((round w : ℤ) : ℚ)) / 10) / s =
      (g₁ : ℚ) + -(e / (10 * s)) := by
    have hrw : ((round w : ℤ) : ℚ) = w + e := by rw [he]; ring
    rw [hoW, hrw, hw]
    field_simp
    ring
  rw [hkey]
  have hw1 : -(5 * s) ≤ w := by
    have := mul_le_mul_of_nonneg_right ht1 hs.le
    rw [hw]; linarith
  have hw2 : w < 5 * s := by
    have := mul_lt_mul_of_pos_right ht2 hs
    rw [hw]; linarith
  have h10s : (0 : ℚ) < 10 * s := by linarith
  have heb : e ≤ 5 * s ∧ -(5 * s) < e := by
    rcases le_or_lt (1 / 2) (5 * s) with hc | hc
    · exact ⟨by linarith [round_le_add_half w],
        by linarith [sub_half_lt_round w]⟩
    · have hrw0 : round w = 0 := by
        rw [round_eq_zero_iff]
        exact Set.mem_Ico.mpr ⟨by linarith, by linarith⟩
      have he0 : e = -w := by rw [he, hrw0]; push_cast; ring
      exact ⟨by rw [he0]; linarith, by rw [he0]; linarith⟩
  have hu1 : -(1 / 2) ≤ -(e / (10 * s)) := by
    have h1 : e / (10 * s) ≤ 1 / 2 := by
      rw [div_le_iff₀ h10s]
      linarith [heb.1]
    linarith
  have hu2 : -(e / (10 * s)) < 1 / 2 := by
    rw [← neg_div, div_lt_iff₀ h10s]
    linarith [heb.2]
  rw [round_int_add, round_eq_zero_iff.mpr (Set.mem_Ico.mpr ⟨hu1, hu2⟩),
    add_zero]

/-- **C7 (amended)**: for a current triple whose overhang is an integer
number of tenths — as produced by `openGeometryModal`, `updateFromSpacing`
and `updateFromGirders`, though not necessarily by `updateFromOverhang` —
applying `updateFromSpacing` twice with the same accepted spacing yields the
same triple both times: the second application succeeds and returns the
first result unchanged. -/
theorem updateFromSpacing_idempotent (cw : ℚ) (geo : Geometry) (s : ℚ)
    (m : ℤ) (hov : geo.overhang = (m : ℚ) / 10) (r : Geometry)
    (hfirst : updateFromSpacing cw geo s = .ok r) :
    updateFromSpacing cw r s = .ok r := by
  simp only [updateFromSpacing, overallWidth] at hfirst ⊢
  rw [hov] at hfirst
  split_ifs at hfirst with hg hneg
  simp only [Except.ok.injEq] at hfirst
  subst hfirst
  push_neg at hg
  dsimp only
  rw [if_neg (by push_neg; exact hg)]
  rw [round_girders_stable (cw + 5) s m hg.1]
  rw [if_neg hneg]

/-- Witness for `updateFromSpacing_idempotent`: re-applying the accepted
spacing `3` to its own result from the default triple for carriagewayWidth
`7.5` returns that result unchanged. -/
theorem updateFromSpacing_idempotent_witness :
    updateFromSpacing (15 / 2) ⟨3, 3, 7 / 2⟩ 3 = .ok ⟨3, 3, 7 / 2⟩ :=
  updateFromSpacing_idempotent (15 / 2) ⟨5 / 2, 4, 5 / 2⟩ 3 25 (by norm_num)
    ⟨3, 3, 7 / 2⟩
    (by simp only [updateFromSpacing, overallWidth, round1]
        norm_num [round_eq, Int.floor_eq_iff])

/-- **C7 (counterexample)**: from the valid triple `(6.125, 2, 0.25)` for
carriagewayWidth `7.5` (overallWidth `12.5`), the spacing edit `0.0625` is
accepted and yields `(0.0625, 196, 0.3)`, but applying the same edit again
yields `(0.0625, 195, 0.3)` — the two applications do not give the same
triple. -/
theorem updateFromSpacing_idempotent_counterexample :
    ValidTriple (overallWidth (15 / 2)) ⟨49 / 8, 2, 1 / 4⟩ ∧
    updateFromSpacing (15 / 2) ⟨49 / 8, 2, 1 / 4⟩ (1 / 16) =
      .ok ⟨1 / 16, 196, 3 / 10⟩ ∧
    updateFromSpacing (15 / 2) ⟨1 / 16, 196, 3 / 10⟩ (1 / 16) =
      .ok ⟨1 / 16, 195, 3 / 10⟩ ∧
    Geometry.mk (1 / 16) 196 (3 / 10) ≠ ⟨1 / 16, 195, 3 / 10⟩ := by
  refine ⟨⟨by norm_num, ⟨2, by norm_num, by norm_num⟩, by norm_num,
    by norm_num [overallWidth], by norm_num [overallWidth]⟩, ?_, ?_, ?_⟩
  · simp only [updateFromSpacing, overallWidth, round1]
    norm_num [round_eq, Int.floor_eq_iff]
  · simp only [updateFromSpacing, overallWidth, round1]
    norm_num [round_eq, Int.floor_eq_iff]
  · simp only [ne_eq, Geometry.mk.injEq]
    norm_num

/-- The custom-parameter form state (`manualParams`): numeric fields are
`number | null`, the seismic zone is a string (`""` when unselected). -/
structure ManualParams where
  windSpeed : Option ℚ
  seismicZone : String
  minTemp : Option ℚ
  maxTemp : Option ℚ
deriving DecidableEq, Repr

/-- The initial `manualParams` state: all fields unset. -/
def initialManualParams : ManualParams := ⟨none, "", none, none⟩

/-- JavaScript's `Number(e.target.value)` on a numeric input: an empty
(cleared) input is coerced to `0`. -/
def jsNumber : Option ℚ → ℚ
  | none => 0
  | some q => q

/-- A change event on one of the custom-parameter inputs; `none` models a
cleared numeric input (`e.target.value = ""`). -/
inductive ParamEvent
  | windChange (raw : Option ℚ)
  | zoneChange (raw : String)
  | minTempChange (raw : Option ℚ)
  | maxTempChange (raw : Option ℚ)
deriving DecidableEq, Repr

/-- The `setManualParams` onChange handlers (BridgeModule.tsx:1285-1358):
every change event on a numeric input stores `Number(e.target.value)`,
always a `some` value. -/
def applyParamEvent (p : ManualParams) : ParamEvent → ManualParams
  | .windChange raw => { p with windSpeed := some (jsNumber raw) }
  | .zoneChange raw => { p with seismicZone := raw }
  | .minTempChange raw => { p with minTemp := some (jsNumber raw) }
  | .maxTempChange raw => { p with maxTemp := some (jsNumber raw) }

/-- The form state after a sequence of change events from the initial
state. -/
def runParamEvents (evs : List ParamEvent) : ManualParams :=
  evs.foldl applyParamEvent initialManualParams

/-- The JSON body `fetchClosestLocation` (BridgeModule.tsx:351-369) posts to
`/api/closest/`: the four `manualParams` fields verbatim (`none` is sent as
JSON `null`). -/
structure ClosestRequestBody where
  wind_speed : Option ℚ
  seismic_zone : String
  min_temp : Option ℚ
  max_temp : Option ℚ
deriving DecidableEq, Repr

/-- The body construction in `fetchClosestLocation`. -/
def closestRequestBody (p : ManualParams) : ClosestRequestBody :=
  ⟨p.windSpeed, p.seismicZone, p.minTemp, p.maxTemp⟩

/-- **C8 (code bug)**: a field the user never touched is sent as `null`
(absent), and a typed value is sent as typed — but clearing a numeric input
after typing in it makes the query carry the numeric value `0` for a field
the user did not supply: `Number("")` is `0`. -/
theorem clearedField_sent_as_zero :
    (closestRequestBody (runParamEvents [])).wind_speed = none ∧
    (closestRequestBody (runParamEvents
      [.windChange (some 5)])).wind_speed = some 5 ∧
    (closestRequestBody (runParamEvents
      [.windChange (some 5), .windChange none])).wind_speed = some 0 :=
  ⟨rfl, rfl, rfl⟩

/-- Modelled from the spec: the seismic-zone ordinal scale
(I < II < III < IV < V) of the location catalog; the matcher backend is not
part of the frontend sources. -/
inductive SeismicZone
  | I
  | II
  | III
  | IV
  | V
deriving DecidableEq, Repr

/-- Modelled from the spec: the rank of a seismic zone on the ordered
categorical scale. -/
def SeismicZone.rank : SeismicZone → ℚ
  | .I => 1
  | .II => 2
  | .III => 3
  | .IV => 4
  | .V => 5

/-- Modelled from the spec: a catalog location — immutable reference data
read by the matcher. -/
structure Location where
  state : String
  district : String
  windSpeed : ℚ
  seismicZone : SeismicZone
  minTemp : ℚ
  maxTemp : ℚ
deriving DecidableEq, Repr

/-- Modelled from the spec: a matcher query; every field is optionally
absent and an absent field is excluded from scoring. -/
structure MatchQuery where
  windSpeed : Option ℚ
  seismicZone : Option SeismicZone
  minTemp : Option ℚ
  maxTemp : Option ℚ
deriving DecidableEq, Repr

/-- Modelled from the spec: a match result — the best location and a
confidence in `[0, 100]`. -/
structure MatchResult where
  location : Location
  confidence : ℚ
deriving DecidableEq, Repr

/-- Modelled from the spec: fixed reference span for the wind-speed
distance term (a scale constant, not catalog-dependent; the exact value is
an implementation choice). -/
def windSpan : ℚ := 100

/-- Modelled from the spec: fixed reference span for the temperature
distance terms. -/
def tempSpan : ℚ := 50

/-- Modelled from the spec: span of the seismic-zone ordinal scale. -/
def zoneSpan : ℚ := 4

/-- Modelled from the spec: the single temperature-profile term, combining
the min- and max-temperature differences as one term (max of the normalized
absolute differences); absent when neither bound is supplied. -/
def tempTerm (q : MatchQuery) (loc : Location) : Option ℚ :=
  match q.minTemp, q.maxTemp with
  | none, none => none
  | some a, none => some (|a - loc.minTemp| / tempSpan)
  | none, some b => some (|b - loc.maxTemp| / tempSpan)
  | some a, some b =>
    some (max (|a - loc.minTemp| / tempSpan) (|b - loc.maxTemp| / tempSpan))

/-- Modelled from the spec: the independently normalized distance terms of
the fields present in the query; absent fields contribute nothing. -/
def presentTerms (q : MatchQuery) (loc : Location) : List ℚ :=
  (q.windSpeed.map fun w => |w - loc.windSpeed| / windSpan).toList ++
    (q.seismicZone.map fun z =>
      |z.rank - loc.seismicZone.rank| / zoneSpan).toList ++
    (tempTerm q loc).toList

/-- Modelled from the spec: total dissimilarity — the sum of the present
terms divided by the number of present terms (`0` for an all-absent
query). -/
def dissimilarity (q : MatchQuery) (loc : Location) : ℚ :=
  let ts := presentTerms q loc
  if ts.length = 0 then 0 else ts.sum / (ts.length : ℚ)

/-- Modelled from the spec: `findClosest` — the backend matcher behind
`/api/closest/` is not part of the frontend sources.  A linear scan keeps
the first location of minimum dissimilarity (a strict comparison, so ties
keep the earlier entry); the confidence is
`100 × (1 − clamp(dissimilarity, 0, 1))`; an empty catalog yields `none`,
the explicit no-match outcome. -/
def findClosest (q : MatchQuery) (catalog : List Location) :
    Option MatchResult :=
  match catalog.foldl (fun best loc =>
      let d := dissimilarity q loc
      match best with
      | none => some (loc, d)
      | some (bl, bd) => if d < bd then some (loc, d) else some (bl, bd))
      none with
  | none => none
  | some (loc, d) => some ⟨loc, 100 * (1 - min (max d 0) 1)⟩

/-- **C9**: on an empty catalog, `findClosest` returns the explicit
no-match outcome: it is a total function and yields `none` — never an
error, a null location or a default `Location`. -/
theorem findClosest_empty_catalog (q : MatchQuery) :
    findClosest q [] = none := rfl

/-- Witness for `updateFromSpacing_spec`: the spacing edit `5` from overhang
`0` rounds the girder count up to `3`, making the recomputed overhang
`−2.5`, a constraint violation. -/
theorem updateFromSpacing_spec_witness :
    updateFromSpacing (15 / 2) ⟨5 / 2, 4, 0⟩ 5 = .error .constraintViolated :=
  (updateFromSpacing_spec (15 / 2) ⟨5 / 2, 4, 0⟩ 5).2.2.1 (by norm_num)
    (by norm_num [overallWidth])
    (by simp only [overallWidth, round1]
        norm_num [round_eq, Int.floor_eq_iff])

/-- Witness for `updateFromGirders_spec`: the girder-count edit `6` from the
default triple makes the recomputed overhang `−2.5`, a constraint
violation. -/
theorem updateFromGirders_spec_witness :
    updateFromGirders (15 / 2) ⟨5 / 2, 4, 5 / 2⟩ 6 =
      .error .constraintViolated :=
  (updateFromGirders_spec (15 / 2) ⟨5 / 2, 4, 5 / 2⟩ 6).2.2.1 (by norm_num)
    (Or.inl (by simp only [overallWidth, round1]
                norm_num [round_eq, Int.floor_eq_iff]))
